import Mathlib

/-!
Verification development for the ERD diagram generator
(`database/docs/generate-erd.py`).

The script is a one-shot rasterizer: a static schema (`entities`), a static
layout (`positions`), free-floating `notes`, and a hand-authored relationship
table (`routes`) are drawn onto a fixed canvas, relationships first, then
entity boxes, then notes.

Python floats are modelled as exact rationals (`ℚ`); every numeric literal in
the source (`0.3`, `0.15`, ...) denotes a decimal fraction that `ℚ` represents
exactly, and all arithmetic in the script is exact on these values, so the
rational model agrees with the float execution on every comparison made below.
Python dicts are modelled as association lists (the source dicts have no
duplicate keys); `dict[k]` raising `KeyError` is modelled by `Option`-valued
lookup, with `none` standing for the raised error.  Pillow draw calls are
modelled as an emitted list of abstract drawing commands (`Cmd`); the font
objects are an abstract type parameter `F` since the script never inspects
them.
-/

namespace ERD

/-- Model of a drawing surface command issued to Pillow.  `F` is the type of
font objects; fill/outline colors are the literal strings passed in the
source.  A `line` with more than two points is not used; `width 0` stands for
Pillow's default width argument. -/
inductive Cmd (F : Type) where
  | rect (x1 y1 x2 y2 : ℚ) (fill : Option String) (outline : Option String)
  | line (ps : List (ℚ × ℚ)) (color : String) (width : ℕ)
  | text (x y : ℚ) (s : String) (color : String) (fnt : F)
  deriving DecidableEq

/-- `true` exactly for line-drawing commands. -/
def Cmd.isLine {F : Type} : Cmd F → Bool
  | .line _ _ _ => true
  | _ => false

-- ── Configuration (generate-erd.py lines 7-24) ────────────────

def BG : String := "#ffffff"
def HEADER_GREEN : String := "#90ee90"
def FK_PINK : String := "#ffcccc"
def ROW_WHITE : String := "#f8fff8"
def BORDER : String := "#888888"
def NOTE_BG : String := "#ffffcc"
def NOTE_BORDER : String := "#cccc88"
def LINE_COLOR : String := "#555555"

def COL_W : ℚ := 220
def TYPE_W : ℚ := 100
def BOX_W : ℚ := COL_W + TYPE_W
def ROW_H : ℚ := 24
def HEADER_H : ℚ := 30

-- ── Entity definitions (lines 36-130): name ↦ ordered columns
--    (column name, type label, is-foreign-key flag) ─────────────

def entities : List (String × List (String × String × Bool)) := [
  ("Resource", [
    ("id", "int", false), ("toolID", "int", true), ("conversationID", "int", false),
    ("messageID", "int", false), ("name", "string", false), ("description", "string", false),
    ("metadata", "jsonb", false), ("s3Uri", "string", false), ("createdAt", "datetime", false),
    ("updatedAt", "datetime", false), ("MIMEType", "string", false), ("content", "string", false)]),
  ("Vector", [
    ("id", "int", false), ("toolID", "int", true), ("resourceID", "int", false),
    ("order", "int", false), ("embedding", "jsonb", false), ("content", "string", false),
    ("createdAt", "datetime", false), ("updatedAt", "datetime", false), ("conversationID", "int", false)]),
  ("Message", [
    ("id", "int", false), ("conversationID", "int", false), ("serialNumber", "int", false),
    ("role", "string", false), ("content", "jsonb", false), ("tokens", "int", false),
    ("createdAt", "datetime", false), ("updatedAt", "datetime", false)]),
  ("Conversation", [
    ("id", "int", false), ("agentID", "int", false), ("userID", "int", false),
    ("deleted", "boolean", false), ("deletedAt", "datetime", false),
    ("createdAt", "datetime", false), ("updatedAt", "datetime", false),
    ("title", "string", false), ("latestSummarySN", "int", false)]),
  ("User", [
    ("id", "int", false), ("firstName", "string", false), ("lastName", "string", false),
    ("email", "string", false), ("roleId", "int", false), ("createdAt", "datetime", false),
    ("updatedAt", "datetime", false), ("status", "string", false), ("apiKey", "string", false),
    ("budget", "float", false), ("remaining", "float", false)]),
  ("Roles", [
    ("id", "int", false), ("name", "string", false), ("displayOrder", "int", false),
    ("createdAt", "datetime", false), ("updatedAt", "datetime", false)]),
  ("RolePolicy", [
    ("roleID", "int", false), ("policyID", "int", false),
    ("createdAt", "datetime", false), ("updatedAt", "datetime", false)]),
  ("Policy", [
    ("id", "int", false), ("name", "string", false), ("resource", "string", false),
    ("action", "string", false), ("createdAt", "datetime", false), ("updatedAt", "datetime", false)]),
  ("Agent", [
    ("id", "int", false), ("name", "string", false), ("description", "string", false),
    ("promptId", "int", false), ("modelID", "int", false), ("modelParameters", "jsonb", false),
    ("createdAt", "datetime", false), ("updatedAt", "datetime", false), ("creatorID", "int", false)]),
  ("Prompt", [
    ("id", "int", false), ("agentID", "int", false), ("version", "int", false),
    ("content", "string", false), ("createdAt", "datetime", false),
    ("updatedAt", "datetime", false), ("name", "string", false)]),
  ("Model", [
    ("id", "int", false), ("name", "string", false), ("type", "string", false),
    ("description", "string", false), ("providerId", "int", false),
    ("createdAt", "datetime", false), ("updatedAt", "datetime", false),
    ("internalName", "string", false), ("summarizeThreshold", "int", false),
    ("defaultParameters", "jsonb", false), ("maxContext", "int", false),
    ("maxOutput", "int", false), ("maxReasoning", "int", false),
    ("cost1kInput", "float", false), ("cost1KOutput", "float", false),
    ("cost1kCacheReason", "float", false), ("cost1kCacheWrite", "float", false)]),
  ("Providers", [
    ("id", "int", false), ("name", "string", false), ("apiKey", "string", false),
    ("endpoint", "string", false), ("createdAt", "datetime", false), ("updatedAt", "datetime", false)]),
  ("Tool", [
    ("id", "int", false), ("name", "string", false), ("description", "string", false),
    ("type", "string", false), ("authenticationType", "string", false),
    ("endpoint", "string", false), ("transportType", "string", false),
    ("customConfig", "jsonb", false), ("createdAt", "datetime", false), ("updatedAt", "datetime", false)]),
  ("UserAgent", [
    ("userID", "int", false), ("agentID", "int", false), ("role", "string", false),
    ("createdAt", "datetime", false), ("updatedAt", "datetime", false)]),
  ("UserTool", [
    ("userID", "int", false), ("toolID", "int", false), ("credential", "jsonb", false),
    ("createdAt", "datetime", false), ("updatedAt", "datetime", false)]),
  ("AgentTool", [
    ("toolID", "int", false), ("agentID", "int", false),
    ("createdAt", "datetime", false), ("updatedAt", "datetime", false)]),
  ("Usages", [
    ("id", "int", false), ("type", "string", true), ("userID", "int", false),
    ("agentID", "int", false), ("messageID", "int", false), ("modelId", "int", false),
    ("inputTokens", "float", false), ("outputtokens", "float", false),
    ("cacheReadToken", "float", false), ("cacheWriteToken", "float", false),
    ("cost", "float", false), ("createdAt", "datetime", false), ("updatedAt", "datetime", false)]),
  ("Sessions", [
    ("sid", "string", false), ("expires", "datetime", false), ("data", "string", false),
    ("createdAt", "datetime", false), ("updatedAt", "datetime", false)])]

-- ── Layout (lines 134-162): entity name ↦ top-left corner ─────

def positions : List (String × ℚ × ℚ) := [
  ("Message", 80, 500),
  ("Roles", 80, 1050),
  ("RolePolicy", 80, 1260),
  ("Policy", 80, 1480),
  ("Resource", 470, 30),
  ("Conversation", 470, 460),
  ("User", 470, 840),
  ("Vector", 860, 30),
  ("Agent", 860, 370),
  ("UserAgent", 860, 760),
  ("UserTool", 860, 940),
  ("Usages", 860, 1180),
  ("Prompt", 1610, 60),
  ("Model", 1610, 340),
  ("AgentTool", 1610, 790),
  ("Providers", 2000, 60),
  ("Tool", 2000, 640),
  ("Sessions", 2000, 1020)]

-- ── Notes (lines 165-183): (x, y, width, lines of text) ───────

def notes : List (ℚ × ℚ × ℚ × List String) := [
  (80, 700, 310, ["role: ['system', 'user', 'assistant', 'tool']"]),
  (470, 1130, 310, ["status: ['Active', 'Inactive', 'Disabled']"]),
  (80, 1190, 300, ["name: ['Admin', 'Super User', 'User']"]),
  (1610, 790, 310, ["type: ['chat', 'embedding', 'reranking']"]),
  (2000, 920, 240, ["type: ['MCP', 'custom']"]),
  (860, 1520, 310, ["type: ['user', 'agent', 'guardrail']"]),
  (860, 910, 280, ["role: ['admin', 'user']"]),
  (1250, 640, 250, ["Model Parameters",
    "  temperature", "  maxToken", "  topP", "  topK", "  ..."]),
  (2000, 1200, 290, ["Configuration",
    "  McpType", "  embeddingModelID", "  rerankingModelID",
    "  chunkSize", "  overlap", "  retrieveTopN", "  rerankTopN", "  ...",
    "", "McpType: ['knowledgebase',", "  'API', 'database']"])]

-- ── Drawing helpers (lines 187-208) ───────────────────────────

/-- `entity_h(name)` (line 187): `HEADER_H + len(entities[name]) * ROW_H + 2`.
An unknown `name` raises `KeyError`, modelled by `none`. -/
def entity_h (name : String) : Option ℚ :=
  (List.lookup name entities).map fun cols => HEADER_H + (cols.length : ℚ) * ROW_H + 2

/-- `box(name)` (line 190): `(x, y, x + BOX_W, y + entity_h(name))` reading
`positions[name]`; an unknown `name` raises `KeyError`, modelled by `none`. -/
def box (name : String) : Option (ℚ × ℚ × ℚ × ℚ) := do
  let (x, y) ← List.lookup name positions
  let h ← entity_h name
  pure (x, y, x + BOX_W, y + h)

/-- The side/fraction dispatch of `edge` (lines 200-208), factored over an
arbitrary box tuple: the branch on the `side` string; a side other than
`'L','R','T','B'` falls through all branches, so Python returns `None`,
modelled by `none`. -/
def edgeOfBox (b : ℚ × ℚ × ℚ × ℚ) (side : String) (frac : ℚ) : Option (ℚ × ℚ) :=
  let (x1, y1, x2, y2) := b
  if side = "L" then some (x1, y1 + (y2 - y1) * frac)
  else if side = "R" then some (x2, y1 + (y2 - y1) * frac)
  else if side = "T" then some (x1 + (x2 - x1) * frac, y1)
  else if side = "B" then some (x1 + (x2 - x1) * frac, y2)
  else none

/-- `edge(name, side, frac)` (line 195).  The outer `Option` models the
`KeyError` raised by `box`; the inner one is the function's own `None`
fall-through result. -/
def edge (name side : String) (frac : ℚ) : Option (Option (ℚ × ℚ)) :=
  (box name).map fun b => edgeOfBox b side frac

/-- A call of `edge` whose result is immediately used as a point (as in
`routes()` and `draw_relationship`): both the `KeyError` and a `None` result
abort the run (`None[0]` raises `TypeError`), so both collapse to `none`. -/
def edgeE (name side : String) (frac : ℚ) : Option (ℚ × ℚ) :=
  (edge name side frac).bind id

-- ── Drawing primitives (lines 210-270) ────────────────────────

/-- `draw_entity(draw_ctx, name)` (lines 210-229): shadow, header band with
the entity name in the bold font, one row per column (background chosen by the
foreign-key flag, divider line, two text cells in the regular font), and the
outer border.  `fnt` and `fB` are the `font` / `font_bold` objects. -/
def draw_entity (F : Type) (fnt fB : F) (name : String) : Option (List (Cmd F)) := do
  let (x, y) ← List.lookup name positions
  let cols ← List.lookup name entities
  let h ← entity_h name
  pure ([Cmd.rect (x+3) (y+3) (x+BOX_W+3) (y+h+3) (some "#dddddd") none,
         Cmd.rect x y (x+BOX_W) (y+HEADER_H) (some HEADER_GREEN) (some BORDER),
         Cmd.text (x+8) (y+5) name "black" fB] ++
        (cols.enum.map fun (i, col_name, col_type, is_fk) =>
          let ry := y + HEADER_H + (i : ℚ) * ROW_H
          let bg := if is_fk then FK_PINK else ROW_WHITE
          [Cmd.rect x ry (x+BOX_W) (ry+ROW_H) (some bg) (some BORDER),
           Cmd.line [(x+COL_W, ry), (x+COL_W, ry+ROW_H)] BORDER 0,
           Cmd.text (x+6) (ry+3) col_name "black" fnt,
           Cmd.text (x+COL_W+6) (ry+3) col_type "black" fnt]).flatten ++
        [Cmd.rect x y (x+BOX_W) (y+h) none (some BORDER)])

/-- The font-selection heuristic of `draw_note` (line 235): bold exactly when
the line is the first one, does not start with a space, and contains neither
`':'` nor `'['` (Python's single-character `in` test). -/
def note_line_bold (i : ℕ) (line : String) : Bool :=
  i == 0 && !(line.data.head? == some ' ') && !(line.data.contains ':') &&
    !(line.data.contains '[')

/-- `draw_note(draw_ctx, x, y, w, lines)` (lines 231-236): background
rectangle of height `len(lines) * 20 + 12`, then each line of text in the
bold font or the note font according to `note_line_bold`. -/
def draw_note (F : Type) (fB fN : F) (x y w : ℚ) (lines : List String) : List (Cmd F) :=
  Cmd.rect x y (x+w) (y + ((lines.length : ℚ) * 20 + 12)) (some NOTE_BG) (some NOTE_BORDER) ::
  lines.enum.map fun (i, line) =>
    Cmd.text (x+8) (y+6+(i : ℚ)*20) line "#333333" (if note_line_bold i line then fB else fN)

/-- `draw_one_mark(draw_ctx, x, y, direction)` (lines 238-244). -/
def draw_one_mark (F : Type) (x y : ℚ) (direction : String) : List (Cmd F) :=
  if direction = "H" then [Cmd.line [(x, y-8), (x, y+8)] LINE_COLOR 2]
  else [Cmd.line [(x-8, y), (x+8, y)] LINE_COLOR 2]

/-- `draw_crow_foot(draw_ctx, x, y, toward)` (lines 246-265). -/
def draw_crow_foot (F : Type) (x y : ℚ) (toward : String) : List (Cmd F) :=
  if toward = "L" then
    [Cmd.line [(x, y), (x+10, y-7)] LINE_COLOR 2,
     Cmd.line [(x, y), (x+10, y)] LINE_COLOR 2,
     Cmd.line [(x, y), (x+10, y+7)] LINE_COLOR 2]
  else if toward = "R" then
    [Cmd.line [(x, y), (x-10, y-7)] LINE_COLOR 2,
     Cmd.line [(x, y), (x-10, y)] LINE_COLOR 2,
     Cmd.line [(x, y), (x-10, y+7)] LINE_COLOR 2]
  else if toward = "U" then
    [Cmd.line [(x, y), (x-7, y+10)] LINE_COLOR 2,
     Cmd.line [(x, y), (x, y+10)] LINE_COLOR 2,
     Cmd.line [(x, y), (x+7, y+10)] LINE_COLOR 2]
  else if toward = "D" then
    [Cmd.line [(x, y), (x-7, y-10)] LINE_COLOR 2,
     Cmd.line [(x, y), (x, y-10)] LINE_COLOR 2,
     Cmd.line [(x, y), (x+7, y-10)] LINE_COLOR 2]
  else []

/-- `draw_ortho_line(draw_ctx, points)` (lines 267-270): one 1-pixel line
segment per consecutive pair of points. -/
def draw_ortho_line (F : Type) (points : List (ℚ × ℚ)) : List (Cmd F) :=
  (points.zip points.tail).map fun (p, q) => Cmd.line [p, q] LINE_COLOR 1

-- ── Relationship routes (lines 273-388) ───────────────────────

/-- One entry of the route table (line 274):
`(src, src_side, src_frac, tgt, tgt_side, tgt_frac, waypoints, one_dir, crow_dir)`. -/
structure Route where
  src : String
  src_side : String
  src_frac : ℚ
  tgt : String
  tgt_side : String
  tgt_frac : ℚ
  waypoints : List (ℚ × ℚ)
  one_dir : String
  crow_dir : String
  deriving DecidableEq

/-- Route 1 appended by `routes()` (line 283): Conversation ↔ Message. -/
def route01 : Option Route :=
  pure ⟨"Conversation", "L", 0.3, "Message", "R", 0.3, [], "H", "R"⟩

/-- Route 2 (line 286): Agent ↔ Conversation. -/
def route02 : Option Route :=
  pure ⟨"Agent", "L", 0.15, "Conversation", "R", 0.15, [], "H", "L"⟩

/-- Route 3 (line 289): Conversation ↔ User. -/
def route03 : Option Route :=
  pure ⟨"Conversation", "B", 0.3, "User", "T", 0.3, [], "V", "D"⟩

/-- Route 4 (line 294): Conversation ↔ Resource. -/
def route04 : Option Route :=
  pure ⟨"Conversation", "T", 0.3, "Resource", "B", 0.3, [], "V", "U"⟩

/-- Route 5 (lines 297-299): Conversation ↔ Vector, waypoint from the
`cv_s`/`cv_e` edge calls. -/
def route05 : Option Route := do
  let cv_s ← edgeE "Conversation" "T" 0.7
  let cv_e ← edgeE "Vector" "B" 0.3
  pure ⟨"Conversation", "T", 0.7, "Vector", "B", 0.3, [(cv_s.1, cv_e.2)], "V", "U"⟩

/-- Route 6 (line 302): Resource ↔ Vector. -/
def route06 : Option Route :=
  pure ⟨"Resource", "R", 0.15, "Vector", "L", 0.15, [], "H", "L"⟩

/-- Route 7 (lines 305-308): Resource ↔ Tool, with `mid_y = min(rs.y, re.y) - 15`. -/
def route07 : Option Route := do
  let rs ← edgeE "Resource" "R" 0.05
  let re ← edgeE "Tool" "L" 0.05
  let mid_y := min rs.2 re.2 - 15
  pure ⟨"Resource", "R", 0.05, "Tool", "L", 0.05,
    [(rs.1+10, rs.2), (rs.1+10, mid_y), (re.1-10, mid_y), (re.1-10, re.2)], "H", "L"⟩

/-- Route 8 (lines 311-314): Vector ↔ Tool, with `mid_y2 = min(vs.y, ve.y) - 30`. -/
def route08 : Option Route := do
  let vs ← edgeE "Vector" "R" 0.05
  let ve ← edgeE "Tool" "L" 0.15
  let mid_y2 := min vs.2 ve.2 - 30
  pure ⟨"Vector", "R", 0.05, "Tool", "L", 0.15,
    [(vs.1+10, vs.2), (vs.1+10, mid_y2), (ve.1-10, mid_y2), (ve.1-10, ve.2)], "H", "L"⟩

/-- Route 9 (lines 319-321): Message ↔ Resource. -/
def route09 : Option Route := do
  let ms ← edgeE "Message" "T" 0.7
  let mre ← edgeE "Resource" "B" 0.7
  pure ⟨"Message", "T", 0.7, "Resource", "B", 0.7,
    [(ms.1, mre.2+15), (mre.1, mre.2+15)], "V", "U"⟩

/-- Route 10 (line 324): Agent ↔ Prompt. -/
def route10 : Option Route :=
  pure ⟨"Agent", "R", 0.2, "Prompt", "L", 0.5, [], "H", "L"⟩

/-- Route 11 (lines 327-329): Agent ↔ Model. -/
def route11 : Option Route := do
  let as1 ← edgeE "Agent" "R" 0.35
  let ae1 ← edgeE "Model" "L" 0.15
  pure ⟨"Agent", "R", 0.35, "Model", "L", 0.15,
    [(as1.1+60, as1.2), (as1.1+60, ae1.2)], "H", "L"⟩

/-- Route 12 (line 332): User ↔ Agent (creatorID). -/
def route12 : Option Route :=
  pure ⟨"User", "T", 0.7, "Agent", "B", 0.7, [], "V", "U"⟩

/-- Route 13 (line 335): Providers ↔ Model, waypoints from two inline
`edge` calls. -/
def route13 : Option Route := do
  let pb ← edgeE "Providers" "B" 0.3
  let mt ← edgeE "Model" "T" 0.7
  pure ⟨"Providers", "B", 0.3, "Model", "T", 0.7,
    [(pb.1, mt.2-15), (mt.1, mt.2-15)], "V", "D"⟩

/-- Route 14 (line 338): User ↔ Roles. -/
def route14 : Option Route :=
  pure ⟨"User", "L", 0.35, "Roles", "R", 0.3, [], "H", "R"⟩

/-- Route 15 (line 341): Roles ↔ RolePolicy. -/
def route15 : Option Route :=
  pure ⟨"Roles", "B", 0.5, "RolePolicy", "T", 0.5, [], "V", "D"⟩

/-- Route 16 (line 344): Policy ↔ RolePolicy. -/
def route16 : Option Route :=
  pure ⟨"Policy", "T", 0.5, "RolePolicy", "B", 0.5, [], "V", "U"⟩

/-- Route 17 (line 347): User ↔ UserAgent. -/
def route17 : Option Route :=
  pure ⟨"User", "R", 0.15, "UserAgent", "L", 0.3, [], "H", "L"⟩

/-- Route 18 (line 350): Agent ↔ UserAgent. -/
def route18 : Option Route :=
  pure ⟨"Agent", "B", 0.3, "UserAgent", "T", 0.3, [], "V", "D"⟩

/-- Route 19 (lines 353-355): User ↔ UserTool. -/
def route19 : Option Route := do
  let us ← edgeE "User" "R" 0.5
  let ue ← edgeE "UserTool" "L" 0.3
  pure ⟨"User", "R", 0.5, "UserTool", "L", 0.3,
    [(us.1+20, us.2), (us.1+20, ue.2)], "H", "L"⟩

/-- Route 20 (line 358): Tool ↔ UserTool. -/
def route20 : Option Route :=
  pure ⟨"Tool", "L", 0.7, "UserTool", "R", 0.3, [], "H", "R"⟩

/-- Route 21 (line 361): Tool ↔ AgentTool. -/
def route21 : Option Route :=
  pure ⟨"Tool", "L", 0.4, "AgentTool", "R", 0.3, [], "H", "R"⟩

/-- Route 22 (lines 364-366): Agent ↔ AgentTool. -/
def route22 : Option Route := do
  let ags ← edgeE "Agent" "R" 0.8
  let age ← edgeE "AgentTool" "L" 0.3
  pure ⟨"Agent", "R", 0.8, "AgentTool", "L", 0.3,
    [(ags.1+30, ags.2), (ags.1+30, age.2)], "H", "L"⟩

/-- Route 23 (lines 369-371): User ↔ Usages. -/
def route23 : Option Route := do
  let uus ← edgeE "User" "B" 0.7
  let uue ← edgeE "Usages" "L" 0.15
  pure ⟨"User", "B", 0.7, "Usages", "L", 0.15, [(uus.1, uue.2)], "V", "L"⟩

/-- Route 24 (line 374): Agent ↔ Usages, waypoints from two inline
`edge` calls. -/
def route24 : Option Route := do
  let ab ← edgeE "Agent" "B" 0.5
  let ut ← edgeE "Usages" "T" 0.3
  pure ⟨"Agent", "B", 0.5, "Usages", "T", 0.3,
    [(ab.1, ut.2-15), (ut.1, ut.2-15)], "V", "U"⟩

/-- Route 25 (lines 377-379): Message ↔ Usages. -/
def route25 : Option Route := do
  let mus ← edgeE "Message" "B" 0.5
  let mue ← edgeE "Usages" "L" 0.35
  pure ⟨"Message", "B", 0.5, "Usages", "L", 0.35, [(mus.1, mue.2)], "V", "L"⟩

/-- Route 26 (lines 382-384): Model ↔ Usages. -/
def route26 : Option Route := do
  let mds ← edgeE "Model" "B" 0.3
  let mde ← edgeE "Usages" "R" 0.3
  pure ⟨"Model", "B", 0.3, "Usages", "R", 0.3, [(mds.1, mde.2)], "V", "R"⟩

/-- `routes()` (lines 278-388): the 26 appended route tuples, in append
order.  The `edge` calls made while building waypoints are the `Option`
computations inside the individual `route*` definitions (each models one
`R.append(...)` statement; any failing call would abort the Python run,
which the sequencing propagates). -/
def routes : Option (List Route) :=
  List.mapM id [route01, route02, route03, route04, route05, route06, route07,
    route08, route09, route10, route11, route12, route13, route14, route15,
    route16, route17, route18, route19, route20, route21, route22, route23,
    route24, route25, route26]

/-- The route list actually produced by `routes()` (which succeeds; see
`routes_eq_some`). -/
def routesList : List Route := routes.getD []

/-- The point sequence `[sp] + waypoints + [tp]` that `draw_relationship`
(line 393) passes to `draw_ortho_line` for a route. -/
def routePoints (r : Route) : Option (List (ℚ × ℚ)) := do
  let sp ← edgeE r.src r.src_side r.src_frac
  let tp ← edgeE r.tgt r.tgt_side r.tgt_frac
  pure ([sp] ++ r.waypoints ++ [tp])

/-- The one-mark placement logic of `draw_relationship` (lines 396-414): an
`if one_dir == 'H'` / `else` pair of four-way branches on `src_side`. -/
def one_mark_cmds (F : Type) (one_dir src_side : String) (sp : ℚ × ℚ) : List (Cmd F) :=
  if one_dir = "H" then
    if src_side = "R" then draw_one_mark F (sp.1+12) sp.2 "H"
    else if src_side = "L" then draw_one_mark F (sp.1-12) sp.2 "H"
    else if src_side = "T" then draw_one_mark F sp.1 (sp.2-12) "V"
    else if src_side = "B" then draw_one_mark F sp.1 (sp.2+12) "V"
    else []
  else
    if src_side = "B" then draw_one_mark F sp.1 (sp.2+12) "V"
    else if src_side = "T" then draw_one_mark F sp.1 (sp.2-12) "V"
    else if src_side = "R" then draw_one_mark F (sp.1+12) sp.2 "H"
    else if src_side = "L" then draw_one_mark F (sp.1-12) sp.2 "H"
    else []

/-- `draw_relationship(draw_ctx, *r)` (lines 390-417): the polyline, the one
mark near the source anchor, and the crow's foot at the target anchor. -/
def draw_relationship (F : Type) (r : Route) : Option (List (Cmd F)) := do
  let sp ← edgeE r.src r.src_side r.src_frac
  let tp ← edgeE r.tgt r.tgt_side r.tgt_frac
  pure (draw_ortho_line F ([sp] ++ r.waypoints ++ [tp]) ++
        one_mark_cmds F r.one_dir r.src_side sp ++
        draw_crow_foot F tp.1 tp.2 r.crow_dir)

-- ── Main (lines 421-437) ──────────────────────────────────────

/-- The relationship pass: `for r in routes(): draw_relationship(d, *r)`. -/
def relationship_cmds (F : Type) : Option (List (Cmd F)) := do
  let rs ← routes
  let css ← rs.mapM (draw_relationship F)
  pure css.flatten

/-- The entity pass: `for name in entities: draw_entity(d, name)`, in the
dict's insertion order. -/
def entity_cmds (F : Type) (fnt fB : F) : Option (List (Cmd F)) := do
  let css ← (entities.map Prod.fst).mapM (draw_entity F fnt fB)
  pure css.flatten

/-- The note pass: `for args in notes: draw_note(d, *args)`. -/
def note_cmds (F : Type) (fB fN : F) : List (Cmd F) :=
  (notes.map fun (x, y, w, lines) => draw_note F fB fN x y w lines).flatten

/-- The full drawing sequence of the script's main section (lines 424-434):
relationships, then entities, then notes, onto the one shared canvas.
`fnt`, `fB`, `fN` are the `font`, `font_bold`, `font_note` objects. -/
def main_draw (F : Type) (fnt fB fN : F) : Option (List (Cmd F)) := do
  let a ← relationship_cmds F
  let b ← entity_cmds F fnt fB
  pure (a ++ b ++ note_cmds F fB fN)

-- ── Specification-side predicates ─────────────────────────────

/-- Spec notion of orthogonality: each consecutive pair of points of the
polyline shares a coordinate (the segment is purely horizontal or purely
vertical). -/
def IsOrthoPolyline (ps : List (ℚ × ℚ)) : Prop :=
  ∀ pq ∈ ps.zip ps.tail, pq.1.1 = pq.2.1 ∨ pq.1.2 = pq.2.2

/-- Spec notion of lying on the perimeter of a box `(x1, y1, x2, y2)`. -/
def OnPerimeter (b : ℚ × ℚ × ℚ × ℚ) (p : ℚ × ℚ) : Prop :=
  ((p.1 = b.1 ∨ p.1 = b.2.2.1) ∧ b.2.1 ≤ p.2 ∧ p.2 ≤ b.2.2.2) ∨
  ((p.2 = b.2.1 ∨ p.2 = b.2.2.2) ∧ b.1 ≤ p.1 ∧ p.1 ≤ b.2.2.1)

/-- A route whose two `edge` lookups both succeed (all authored routes do). -/
def routeOk (r : Route) : Bool :=
  (edgeE r.src r.src_side r.src_frac).isSome && (edgeE r.tgt r.tgt_side r.tgt_frac).isSome

/-- An entity name on which `draw_entity` succeeds. -/
def entityOk (name : String) : Bool :=
  (List.lookup name positions).isSome && (List.lookup name entities).isSome

-- ── General helper lemmas ─────────────────────────────────────

theorem optionGetD_eq {α : Type} (o : Option α) (d : α) (h : o.isSome = true) :
    o = some (o.getD d) := by
  cases o <;> simp_all

theorem mapM_some_of_forall {α β : Type} (f : α → Option β) (P : β → Prop) :
    ∀ l : List α, (∀ a ∈ l, ∃ b, f a = some b ∧ P b) →
      ∃ bs, l.mapM f = some bs ∧ ∀ b ∈ bs, P b := by
  intro l
  induction l with
  | nil => intro _; exact ⟨[], rfl, by simp⟩
  | cons a t ih =>
      intro h
      obtain ⟨b, hb, hPb⟩ := h a (by simp)
      obtain ⟨bs, hbs, hPbs⟩ := ih fun x hx => h x (by simp [hx])
      refine ⟨b :: bs, by rw [List.mapM_cons, hb, hbs]; rfl, ?_⟩
      intro c hc
      rcases List.mem_cons.mp hc with hc | hc
      · exact hc ▸ hPb
      · exact hPbs c hc

theorem mapM_none_of_mem {α β : Type} (f : α → Option β) :
    ∀ (l : List α) (a : α), a ∈ l → f a = none → l.mapM f = none := by
  intro l
  induction l with
  | nil => intro a ha _; cases ha
  | cons x t ih =>
      intro a ha hf
      rcases List.mem_cons.mp ha with rfl | ha
      · rw [List.mapM_cons, hf]; rfl
      · cases hx : f x with
        | none => rw [List.mapM_cons, hx]; rfl
        | some b => rw [List.mapM_cons, hx, ih a ha hf]; rfl

theorem mem_of_mapM {α β : Type} (f : α → Option β) :
    ∀ (l : List α) (bs : List β), l.mapM f = some bs →
      ∀ b ∈ bs, ∃ a ∈ l, f a = some b := by
  intro l
  induction l with
  | nil =>
      intro bs h b hb
      rw [List.mapM_nil] at h
      simp at h
      subst h
      cases hb
  | cons x t ih =>
      intro bs h b hb
      rw [List.mapM_cons] at h
      cases hx : f x with
      | none => rw [hx] at h; simp at h
      | some c =>
          rw [hx] at h
          cases ht : t.mapM f with
          | none => rw [ht] at h; simp at h
          | some cs =>
              rw [ht] at h
              simp at h
              subst h
              rcases List.mem_cons.mp hb with rfl | hb
              · exact ⟨x, by simp, hx⟩
              · obtain ⟨a, ha, hfa⟩ := ih cs ht b hb
                exact ⟨a, by simp [ha], hfa⟩

theorem list_mem_iff_of_toFinset_eq {A B : List String}
    (h : A.toFinset = B.toFinset) (n : String) : n ∈ A ↔ n ∈ B := by
  rw [← List.mem_toFinset, h, List.mem_toFinset]

-- ── Evaluation helpers for the geometry ───────────────────────

theorem entity_h_eq (name : String) (n : Nat)
    (h : (List.lookup name entities).map List.length = some n) :
    entity_h name = some (HEADER_H + (n : ℚ) * ROW_H + 2) := by
  cases hl : List.lookup name entities with
  | none => rw [hl] at h; simp at h
  | some cols =>
      rw [hl] at h
      simp only [Option.map_some'] at h
      rw [entity_h, hl]
      simp only [Option.map_some']
      injection h with h
      rw [h]

theorem box_eq (name : String) (x y : ℚ) (n : Nat)
    (hp : List.lookup name positions = some (x, y))
    (hn : (List.lookup name entities).map List.length = some n) :
    box name = some (x, y, x + BOX_W, y + (HEADER_H + (n : ℚ) * ROW_H + 2)) := by
  rw [box, hp]
  simp [entity_h_eq name n hn]

theorem edgeE_eq (name side : String) (frac : ℚ) (b : ℚ × ℚ × ℚ × ℚ)
    (hb : box name = some b) :
    edgeE name side frac = edgeOfBox b side frac := by
  simp [edgeE, edge, hb]

theorem edgeOfBox_L (x1 y1 x2 y2 f : ℚ) :
    edgeOfBox (x1, y1, x2, y2) "L" f = some (x1, y1 + (y2 - y1) * f) := rfl

theorem edgeOfBox_R (x1 y1 x2 y2 f : ℚ) :
    edgeOfBox (x1, y1, x2, y2) "R" f = some (x2, y1 + (y2 - y1) * f) := rfl

theorem edgeOfBox_T (x1 y1 x2 y2 f : ℚ) :
    edgeOfBox (x1, y1, x2, y2) "T" f = some (x1 + (x2 - x1) * f, y1) := rfl

theorem edgeOfBox_B (x1 y1 x2 y2 f : ℚ) :
    edgeOfBox (x1, y1, x2, y2) "B" f = some (x1 + (x2 - x1) * f, y2) := rfl

theorem routes_eq_some : routes = some routesList :=
  optionGetD_eq routes [] (by decide)

theorem box_Conversation : box "Conversation" = some (470, 460, 790, 708) := by
  rw [box_eq "Conversation" 470 460 9 (by decide) (by decide)]
  norm_num [BOX_W, COL_W, TYPE_W, HEADER_H, ROW_H]

theorem box_Message : box "Message" = some (80, 500, 400, 724) := by
  rw [box_eq "Message" 80 500 8 (by decide) (by decide)]
  norm_num [BOX_W, COL_W, TYPE_W, HEADER_H, ROW_H]

-- ── Draw-command shape helpers ────────────────────────────────

theorem draw_one_mark_isLine (F : Type) (x y : ℚ) (d : String) :
    ∀ c ∈ draw_one_mark F x y d, c.isLine = true := by
  intro c hc
  unfold draw_one_mark at hc
  split at hc <;> simp at hc <;> subst hc <;> rfl

theorem one_mark_cmds_isLine (F : Type) (d s : String) (sp : ℚ × ℚ) :
    ∀ c ∈ one_mark_cmds F d s sp, c.isLine = true := by
  intro c hc
  unfold one_mark_cmds at hc
  split_ifs at hc
  all_goals first
  | exact draw_one_mark_isLine F _ _ _ c hc
  | simp at hc

theorem draw_crow_foot_isLine (F : Type) (x y : ℚ) (t : String) :
    ∀ c ∈ draw_crow_foot F x y t, c.isLine = true := by
  intro c hc
  unfold draw_crow_foot at hc
  split_ifs at hc <;> simp at hc <;>
    rcases hc with rfl | rfl | rfl <;> rfl

theorem draw_ortho_line_isLine (F : Type) (ps : List (ℚ × ℚ)) :
    ∀ c ∈ draw_ortho_line F ps, c.isLine = true := by
  intro c hc
  unfold draw_ortho_line at hc
  rcases List.mem_map.mp hc with ⟨⟨p, q⟩, -, rfl⟩
  rfl

theorem draw_relationship_eq (F : Type) (r : Route) (sp tp : ℚ × ℚ)
    (hs : edgeE r.src r.src_side r.src_frac = some sp)
    (ht : edgeE r.tgt r.tgt_side r.tgt_frac = some tp) :
    draw_relationship F r =
      some (draw_ortho_line F ([sp] ++ r.waypoints ++ [tp]) ++
            one_mark_cmds F r.one_dir r.src_side sp ++
            draw_crow_foot F tp.1 tp.2 r.crow_dir) := by
  simp [draw_relationship, hs, ht]

theorem draw_relationship_ok (F : Type) (r : Route) (h : routeOk r = true) :
    ∃ cs, draw_relationship F r = some cs ∧ ∀ c ∈ cs, c.isLine = true := by
  unfold routeOk at h
  rw [Bool.and_eq_true] at h
  obtain ⟨sp, hsp⟩ := Option.isSome_iff_exists.mp h.1
  obtain ⟨tp, htp⟩ := Option.isSome_iff_exists.mp h.2
  refine ⟨_, draw_relationship_eq F r sp tp hsp htp, ?_⟩
  intro c hc
  rcases List.mem_append.mp hc with hc | hc
  · rcases List.mem_append.mp hc with hc | hc
    · exact draw_ortho_line_isLine F _ c hc
    · exact one_mark_cmds_isLine F _ _ _ c hc
  · exact draw_crow_foot_isLine F _ _ _ c hc

theorem draw_entity_ok (F : Type) (fnt fB : F) (name : String)
    (h : entityOk name = true) : ∃ cs, draw_entity F fnt fB name = some cs := by
  unfold entityOk at h
  rw [Bool.and_eq_true] at h
  obtain ⟨⟨x, y⟩, hp⟩ := Option.isSome_iff_exists.mp h.1
  obtain ⟨cols, he⟩ := Option.isSome_iff_exists.mp h.2
  rw [draw_entity, hp]
  simp [entity_h, he]

theorem mapM_loop_eq {α β : Type} (f : α → Option β) (l : List α) :
    List.mapM.loop f l [] = l.mapM f := rfl

theorem one_mark_cmds_eq_V (F : Type) (s : String) (sp : ℚ × ℚ) (d : String) :
    one_mark_cmds F d s sp = one_mark_cmds F "V" s sp := by
  unfold one_mark_cmds
  by_cases hd : d = "H"
  · rw [if_pos hd, if_neg (by decide : ¬("V" = "H"))]
    by_cases h1 : s = "R" <;> by_cases h2 : s = "L" <;>
      by_cases h3 : s = "T" <;> by_cases h4 : s = "B" <;>
      simp [h1, h2, h3, h4]
  · rw [if_neg hd, if_neg (by decide : ¬("V" = "H"))]

-- ── Claim theorems ────────────────────────────────────────────

/-- Claim C1 (refuted; evidence for the code bug): the very first route that
`routes()` produces, Conversation.L(0.3) → Message.R(0.3) with no waypoints,
renders as the single segment (470, 534.4) – (400, 567.2), which differs in
both coordinates: the generated polyline is *not* orthogonal, contradicting
the script's own "orthogonal routing" documentation. -/
theorem routes_first_route_diagonal :
    routes = some routesList ∧
    routesList.get? 0 = some ⟨"Conversation", "L", 0.3, "Message", "R", 0.3, [], "H", "R"⟩ ∧
    routePoints ⟨"Conversation", "L", 0.3, "Message", "R", 0.3, [], "H", "R"⟩ =
      some [(470, 534.4), (400, 567.2)] ∧
    ¬ IsOrthoPolyline [(470, 534.4), (400, 567.2)] := by
  have h1 : edgeE "Conversation" "L" 0.3 = some (470, 534.4) := by
    rw [edgeE_eq "Conversation" "L" 0.3 _ box_Conversation, edgeOfBox_L]
    norm_num
  have h2 : edgeE "Message" "R" 0.3 = some (400, 567.2) := by
    rw [edgeE_eq "Message" "R" 0.3 _ box_Message, edgeOfBox_R]
    norm_num
  refine ⟨routes_eq_some, rfl, by simp [routePoints, h1, h2], ?_⟩
  intro h
  have := h ((470, 534.4), (400, 567.2)) (by simp)
  rcases this with h' | h' <;> norm_num at h'

/-- Claim C3: for every entity with a Schema Model entry and a Position
entry, the computed height is exactly `30 + n·24 + 2` for its attribute
count `n` (so a 3-attribute entity would measure 104), and `box` returns
`(x, y, x + BOX_W, y + height)`. -/
theorem box_height_formula (name : String) (cols : List (String × String × Bool))
    (x y : ℚ)
    (he : List.lookup name entities = some cols)
    (hp : List.lookup name positions = some (x, y)) :
    entity_h name = some (30 + (cols.length : ℚ) * 24 + 2) ∧
    box name = some (x, y, x + BOX_W, y + (30 + (cols.length : ℚ) * 24 + 2)) ∧
    HEADER_H + 3 * ROW_H + 2 = (104 : ℚ) := by
  have hn : (List.lookup name entities).map List.length = some cols.length := by
    rw [he]; rfl
  refine ⟨?_, ?_, by norm_num [HEADER_H, ROW_H]⟩
  · rw [entity_h_eq name cols.length hn]
    norm_num [HEADER_H, ROW_H]
  · rw [box_eq name x y cols.length hp hn]
    norm_num [HEADER_H, ROW_H]

/-- Witness for C3 at the 4-attribute entity RolePolicy placed at (80, 1260). -/
theorem box_height_formula_witness :
    box "RolePolicy" = some (80, 1260, 400, 1388) := by
  have h := (box_height_formula "RolePolicy"
    [("roleID", "int", false), ("policyID", "int", false),
     ("createdAt", "datetime", false), ("updatedAt", "datetime", false)]
    80 1260 (by decide) (by decide)).2.1
  norm_num [BOX_W, COL_W, TYPE_W] at h
  exact h

/-- Claim C4: an entity name with no Position entry makes `box` and `edge`
raise `KeyError` (modelled by the error value `none`, never a default
point), and any route naming such an entity makes `draw_relationship` — and
with it the whole relationship pass — abort. -/
theorem missing_position_fails (name : String)
    (h : List.lookup name positions = none) :
    box name = none ∧
    (∀ side frac, edge name side frac = none) ∧
    (∀ (F : Type) (r : Route), r.src = name ∨ r.tgt = name →
      draw_relationship F r = none) ∧
    (∀ (F : Type) (rs : List Route) (r : Route), r ∈ rs →
      r.src = name ∨ r.tgt = name → rs.mapM (draw_relationship F) = none) := by
  have hbox : box name = none := by rw [box, h]; rfl
  have hedge : ∀ side frac, edge name side frac = none := by
    intro side frac; rw [edge, hbox]; rfl
  have hE : ∀ side frac, edgeE name side frac = none := by
    intro side frac; rw [edgeE, hedge]; rfl
  have hdr : ∀ (F : Type) (r : Route), r.src = name ∨ r.tgt = name →
      draw_relationship F r = none := by
    intro F r hr
    rcases hr with hr | hr
    · unfold draw_relationship
      rw [hr, hE]; rfl
    · unfold draw_relationship
      cases h1 : edgeE r.src r.src_side r.src_frac with
      | none => rfl
      | some sp => rw [hr, hE]; rfl
  exact ⟨hbox, hedge, hdr,
    fun F rs r hmem hr => mapM_none_of_mem _ rs r hmem (hdr F r hr)⟩

/-- Witness for C4 at the undefined entity name "Ghost". -/
theorem missing_position_fails_witness :
    box "Ghost" = none ∧
    draw_relationship Nat ⟨"Ghost", "L", 0.5, "User", "R", 0.5, [], "H", "R"⟩ = none := by
  have h := missing_position_fails "Ghost" (by decide)
  exact ⟨h.1, h.2.2.1 Nat _ (Or.inl rfl)⟩

/-- Claim C5: the rendering pipeline is deterministic — two runs of the full
draw sequence over the same static data with identical fonts produce the
identical command sequence (hence byte-identical canvases). -/
theorem render_deterministic (F : Type) (fnt fB fN fnt' fB' fN' : F)
    (h1 : fnt = fnt') (h2 : fB = fB') (h3 : fN = fN') :
    main_draw F fnt fB fN = main_draw F fnt' fB' fN' := by
  subst h1; subst h2; subst h3; rfl

/-- Witness for C5 with a concrete font assignment. -/
theorem render_deterministic_witness :
    main_draw Nat 0 1 2 = main_draw Nat 0 1 2 :=
  render_deterministic Nat 0 1 2 0 1 2 rfl rfl rfl

/-- Claim C9: `edge` called with a Position-holding entity and a side string
outside L/R/T/B falls through every branch and silently returns Python
`None` (the inner `none`) rather than raising, and every route in the route
table carries only the four side letters, so the fall-through is unreachable
from the program's call sites. -/
theorem edge_invalid_side_silent :
    (∀ (name : String) (b : ℚ × ℚ × ℚ × ℚ) (side : String) (frac : ℚ),
      box name = some b → side ∉ (["L", "R", "T", "B"] : List String) →
      edge name side frac = some none) ∧
    (∀ r ∈ routesList,
      r.src_side ∈ (["L", "R", "T", "B"] : List String) ∧
      r.tgt_side ∈ (["L", "R", "T", "B"] : List String)) := by
  constructor
  · intro name b side frac hb hside
    simp only [List.mem_cons, List.not_mem_nil, or_false] at hside
    push_neg at hside
    obtain ⟨h1, h2, h3, h4⟩ := hside
    obtain ⟨x1, y1, x2, y2⟩ := b
    rw [edge, hb]
    simp [edgeOfBox, h1, h2, h3, h4]
  · decide

/-- Witness for C9: side "X" on the positioned entity User. -/
theorem edge_invalid_side_silent_witness : edge "User" "X" 0 = some none := by
  obtain ⟨b, hb⟩ := Option.isSome_iff_exists.mp
    (show (box "User").isSome = true by decide)
  exact edge_invalid_side_silent.1 "User" b "X" 0 hb (by decide)

/-- Claim C10: the one-mark placement in `draw_relationship` does not depend
on the route's `one_dir` field — the `'H'` and `'V'` branches map each source
side to the same mark, offset 12 px outward along the side's normal with the
same orientation — so flipping `one_dir` never changes the rendered
commands. -/
theorem one_mark_independent_of_one_dir (F : Type) (r : Route) (sp : ℚ × ℚ) :
    draw_relationship F { r with one_dir := "H" } =
      draw_relationship F { r with one_dir := "V" } ∧
    (∀ d d' : String,
      one_mark_cmds F d r.src_side sp = one_mark_cmds F d' r.src_side sp) ∧
    one_mark_cmds F "H" "R" sp =
      [Cmd.line [(sp.1+12, sp.2-8), (sp.1+12, sp.2+8)] LINE_COLOR 2] ∧
    one_mark_cmds F "H" "L" sp =
      [Cmd.line [(sp.1-12, sp.2-8), (sp.1-12, sp.2+8)] LINE_COLOR 2] ∧
    one_mark_cmds F "H" "T" sp =
      [Cmd.line [(sp.1-8, sp.2-12), (sp.1+8, sp.2-12)] LINE_COLOR 2] ∧
    one_mark_cmds F "H" "B" sp =
      [Cmd.line [(sp.1-8, sp.2+12), (sp.1+8, sp.2+12)] LINE_COLOR 2] := by
  refine ⟨?_,
    fun d d' => (one_mark_cmds_eq_V F r.src_side sp d).trans
      (one_mark_cmds_eq_V F r.src_side sp d').symm,
    rfl, rfl, rfl, rfl⟩
  unfold draw_relationship
  simp only [one_mark_cmds_eq_V]

/-- Claim C2: `edge`'s side dispatch is exact unclamped linear interpolation
along the requested side — endpoints at the side's corners, affine in the
fraction, on the box perimeter for fractions in [0, 1], strictly beyond the
side's span for fractions outside [0, 1], with the spec's concrete scenario
(y1 = 100, y2 = 200, fraction ½ on the left side gives x = x1, y = 150) —
and for every positioned entity `edge` computes exactly this interpolation
on `box`, whose boxes always have positive extent. -/
theorem anchor_linear_interpolation (x1 y1 x2 y2 f : ℚ) :
    (edgeOfBox (x1, y1, x2, y2) "L" 0 = some (x1, y1) ∧
     edgeOfBox (x1, y1, x2, y2) "L" 1 = some (x1, y2) ∧
     edgeOfBox (x1, y1, x2, y2) "R" 0 = some (x2, y1) ∧
     edgeOfBox (x1, y1, x2, y2) "R" 1 = some (x2, y2) ∧
     edgeOfBox (x1, y1, x2, y2) "T" 0 = some (x1, y1) ∧
     edgeOfBox (x1, y1, x2, y2) "T" 1 = some (x2, y1) ∧
     edgeOfBox (x1, y1, x2, y2) "B" 0 = some (x1, y2) ∧
     edgeOfBox (x1, y1, x2, y2) "B" 1 = some (x2, y2)) ∧
    (∀ side ∈ (["L", "R", "T", "B"] : List String), ∀ p0 p1 p : ℚ × ℚ,
      edgeOfBox (x1, y1, x2, y2) side 0 = some p0 →
      edgeOfBox (x1, y1, x2, y2) side 1 = some p1 →
      edgeOfBox (x1, y1, x2, y2) side f = some p →
      p = ((1 - f) * p0.1 + f * p1.1, (1 - f) * p0.2 + f * p1.2)) ∧
    (x1 ≤ x2 → y1 ≤ y2 → 0 ≤ f → f ≤ 1 →
      ∀ side ∈ (["L", "R", "T", "B"] : List String), ∀ p : ℚ × ℚ,
        edgeOfBox (x1, y1, x2, y2) side f = some p →
        OnPerimeter (x1, y1, x2, y2) p) ∧
    (∀ side ∈ (["L", "R"] : List String), ∀ p : ℚ × ℚ,
      edgeOfBox (x1, y1, x2, y2) side f = some p →
      (y1 < y2 → 1 < f → y2 < p.2) ∧ (y1 < y2 → f < 0 → p.2 < y1)) ∧
    (∀ side ∈ (["T", "B"] : List String), ∀ p : ℚ × ℚ,
      edgeOfBox (x1, y1, x2, y2) side f = some p →
      (x1 < x2 → 1 < f → x2 < p.1) ∧ (x1 < x2 → f < 0 → p.1 < x1)) ∧
    (y1 = 100 → y2 = 200 → f = 1/2 →
      edgeOfBox (x1, y1, x2, y2) "L" f = some (x1, 150)) ∧
    (∀ (name : String) (b : ℚ × ℚ × ℚ × ℚ), box name = some b →
      (∀ side frac, edge name side frac = some (edgeOfBox b side frac)) ∧
      b.1 < b.2.2.1 ∧ b.2.1 < b.2.2.2) := by
  refine ⟨?_, ?_, ?_, ?_, ?_, ?_, ?_⟩
  · refine ⟨?_, ?_, ?_, ?_, ?_, ?_, ?_, ?_⟩ <;>
      simp [edgeOfBox_L, edgeOfBox_R, edgeOfBox_T, edgeOfBox_B] <;> ring
  · intro side hside p0 p1 p h0 h1 hp
    fin_cases hside
    · rw [edgeOfBox_L] at h0 h1 hp
      obtain rfl := Option.some_inj.mp h0
      obtain rfl := Option.some_inj.mp h1
      obtain rfl := Option.some_inj.mp hp
      simp only [Prod.mk.injEq]
      constructor <;> ring
    · rw [edgeOfBox_R] at h0 h1 hp
      obtain rfl := Option.some_inj.mp h0
      obtain rfl := Option.some_inj.mp h1
      obtain rfl := Option.some_inj.mp hp
      simp only [Prod.mk.injEq]
      constructor <;> ring
    · rw [edgeOfBox_T] at h0 h1 hp
      obtain rfl := Option.some_inj.mp h0
      obtain rfl := Option.some_inj.mp h1
      obtain rfl := Option.some_inj.mp hp
      simp only [Prod.mk.injEq]
      constructor <;> ring
    · rw [edgeOfBox_B] at h0 h1 hp
      obtain rfl := Option.some_inj.mp h0
      obtain rfl := Option.some_inj.mp h1
      obtain rfl := Option.some_inj.mp hp
      simp only [Prod.mk.injEq]
      constructor <;> ring
  · intro hx hy hf0 hf1 side hside p hp
    fin_cases hside
    · rw [edgeOfBox_L] at hp
      obtain rfl := Option.some_inj.mp hp
      dsimp only [OnPerimeter]
      exact Or.inl ⟨Or.inl rfl,
        by nlinarith [mul_nonneg (sub_nonneg.mpr hy) hf0],
        by nlinarith [mul_nonneg (sub_nonneg.mpr hy) (sub_nonneg.mpr hf1)]⟩
    · rw [edgeOfBox_R] at hp
      obtain rfl := Option.some_inj.mp hp
      dsimp only [OnPerimeter]
      exact Or.inl ⟨Or.inr rfl,
        by nlinarith [mul_nonneg (sub_nonneg.mpr hy) hf0],
        by nlinarith [mul_nonneg (sub_nonneg.mpr hy) (sub_nonneg.mpr hf1)]⟩
    · rw [edgeOfBox_T] at hp
      obtain rfl := Option.some_inj.mp hp
      dsimp only [OnPerimeter]
      exact Or.inr ⟨Or.inl rfl,
        by nlinarith [mul_nonneg (sub_nonneg.mpr hx) hf0],
        by nlinarith [mul_nonneg (sub_nonneg.mpr hx) (sub_nonneg.mpr hf1)]⟩
    · rw [edgeOfBox_B] at hp
      obtain rfl := Option.some_inj.mp hp
      dsimp only [OnPerimeter]
      exact Or.inr ⟨Or.inr rfl,
        by nlinarith [mul_nonneg (sub_nonneg.mpr hx) hf0],
        by nlinarith [mul_nonneg (sub_nonneg.mpr hx) (sub_nonneg.mpr hf1)]⟩
  · intro side hside p hp
    fin_cases hside
    · rw [edgeOfBox_L] at hp
      obtain rfl := Option.some_inj.mp hp
      dsimp only
      exact ⟨fun hy hf => by nlinarith [mul_lt_mul_of_pos_left hf (sub_pos.mpr hy)],
             fun hy hf => by nlinarith [mul_neg_of_pos_of_neg (sub_pos.mpr hy) hf]⟩
    · rw [edgeOfBox_R] at hp
      obtain rfl := Option.some_inj.mp hp
      dsimp only
      exact ⟨fun hy hf => by nlinarith [mul_lt_mul_of_pos_left hf (sub_pos.mpr hy)],
             fun hy hf => by nlinarith [mul_neg_of_pos_of_neg (sub_pos.mpr hy) hf]⟩
  · intro side hside p hp
    fin_cases hside
    · rw [edgeOfBox_T] at hp
      obtain rfl := Option.some_inj.mp hp
      dsimp only
      exact ⟨fun hx hf => by nlinarith [mul_lt_mul_of_pos_left hf (sub_pos.mpr hx)],
             fun hx hf => by nlinarith [mul_neg_of_pos_of_neg (sub_pos.mpr hx) hf]⟩
    · rw [edgeOfBox_B] at hp
      obtain rfl := Option.some_inj.mp hp
      dsimp only
      exact ⟨fun hx hf => by nlinarith [mul_lt_mul_of_pos_left hf (sub_pos.mpr hx)],
             fun hx hf => by nlinarith [mul_neg_of_pos_of_neg (sub_pos.mpr hx) hf]⟩
  · intro hy1 hy2 hf
    subst hy1; subst hy2; subst hf
    rw [edgeOfBox_L]
    norm_num
  · intro name b hb
    refine ⟨fun side frac => by rw [edge, hb]; rfl, ?_⟩
    rw [box] at hb
    cases hp : List.lookup name positions with
    | none => rw [hp] at hb; exact absurd hb (by simp)
    | some xy =>
        rw [hp] at hb
        obtain ⟨x, y⟩ := xy
        cases hh : entity_h name with
        | none => rw [hh] at hb; exact absurd hb (by simp)
        | some hgt =>
            rw [hh] at hb
            simp only [Option.some_bind] at hb
            obtain rfl := Option.some_inj.mp hb
            have hw : (0 : ℚ) < BOX_W := by norm_num [BOX_W, COL_W, TYPE_W]
            have hhgt : (0 : ℚ) < hgt := by
              unfold entity_h at hh
              cases he : List.lookup name entities with
              | none => rw [he] at hh; exact absurd hh (by simp)
              | some cols =>
                  rw [he] at hh
                  simp only [Option.map_some'] at hh
                  obtain rfl := Option.some_inj.mp hh
                  have : (0 : ℚ) ≤ (cols.length : ℚ) := Nat.cast_nonneg _
                  have hr : (0 : ℚ) ≤ (cols.length : ℚ) * ROW_H := by
                    rw [ROW_H]; nlinarith
                  norm_num [HEADER_H]
                  nlinarith
            exact ⟨by simpa using hw, by simpa using hhgt⟩

/-- Witness for C2: the spec's concrete scenario on the box
(50, 100, 370, 200): the left-side midpoint anchor is (50, 150) and lies on
the box perimeter. -/
theorem anchor_linear_interpolation_witness :
    edgeOfBox (50, 100, 370, 200) "L" (1/2) = some (50, 150) ∧
    OnPerimeter (50, 100, 370, 200) (50, 150) := by
  have h := anchor_linear_interpolation 50 100 370 200 (1/2)
  have hpt : edgeOfBox (50, 100, 370, 200) "L" (1/2) = some (50, 150) :=
    h.2.2.2.2.2.1 rfl rfl rfl
  exact ⟨hpt, h.2.2.1 (by norm_num) (by norm_num) (by norm_num) (by norm_num)
    "L" (by decide) (50, 150) hpt⟩

/-- Claim C6: the schema and the layout are referentially intact — the
entities table and the positions table have the same key set, each with no
duplicate keys, and every entity named by a route of `routes()` is a key of
both tables. -/
theorem referential_integrity :
    (∀ n, n ∈ entities.map Prod.fst ↔ n ∈ positions.map Prod.fst) ∧
    (entities.map Prod.fst).Nodup ∧
    (positions.map Prod.fst).Nodup ∧
    routes = some routesList ∧
    (∀ r ∈ routesList,
      r.src ∈ entities.map Prod.fst ∧ r.tgt ∈ entities.map Prod.fst ∧
      r.src ∈ positions.map Prod.fst ∧ r.tgt ∈ positions.map Prod.fst) := by
  exact ⟨list_mem_iff_of_toFinset_eq (by decide), by decide, by decide,
    routes_eq_some, by decide⟩

/-- Witness for C6 at the first route (Conversation → Message). -/
theorem referential_integrity_witness :
    "Conversation" ∈ entities.map Prod.fst ∧
    "Message" ∈ positions.map Prod.fst := by
  have h0 : routesList.get? 0 =
      some ⟨"Conversation", "L", 0.3, "Message", "R", 0.3, [], "H", "R"⟩ := rfl
  have h := referential_integrity.2.2.2.2 _ (List.get?_mem h0)
  exact ⟨h.1, h.2.2.2⟩

/-- Claim C7: the draw sequence is layered — the relationship pass, in which
every command is a line (polylines and end-cap marks), comes first in its
entirety, then the entity pass, and the note pass comes last. -/
theorem layering_order (F : Type) (fnt fB fN : F) :
    ∃ A B : List (Cmd F),
      relationship_cmds F = some A ∧
      entity_cmds F fnt fB = some B ∧
      main_draw F fnt fB fN = some (A ++ B ++ note_cmds F fB fN) ∧
      ∀ c ∈ A, c.isLine = true := by
  have hokr : ∀ r ∈ routesList, routeOk r = true := by decide
  have hall : ∀ r ∈ routesList, ∃ cs, draw_relationship F r = some cs ∧
      ∀ c ∈ cs, c.isLine = true :=
    fun r hr => draw_relationship_ok F r (hokr r hr)
  obtain ⟨css, hcss, hPcss⟩ := mapM_some_of_forall (draw_relationship F)
    (fun cs => ∀ c ∈ cs, c.isLine = true) routesList hall
  have hoke : ∀ name ∈ entities.map Prod.fst, entityOk name = true := by decide
  have hent : ∀ name ∈ entities.map Prod.fst,
      ∃ cs, draw_entity F fnt fB name = some cs ∧ True := by
    intro name hn
    obtain ⟨cs, hcs⟩ := draw_entity_ok F fnt fB name (hoke name hn)
    exact ⟨cs, hcs, trivial⟩
  obtain ⟨css2, hcss2, -⟩ := mapM_some_of_forall (draw_entity F fnt fB)
    (fun _ => True) (entities.map Prod.fst) hent
  have hcss' : List.mapM.loop (draw_relationship F) routesList [] = some css := by
    rw [mapM_loop_eq]; exact hcss
  have hcss2' : List.mapM.loop (draw_entity F fnt fB) (entities.map Prod.fst) [] =
      some css2 := by
    rw [mapM_loop_eq]; exact hcss2
  refine ⟨css.flatten, css2.flatten, ?_, ?_, ?_, ?_⟩
  · simp [relationship_cmds, routes_eq_some, hcss']
  · simp [entity_cmds, hcss2']
  · simp [main_draw, relationship_cmds, entity_cmds, routes_eq_some, hcss', hcss2']
  · intro c hc
    rw [List.mem_flatten] at hc
    obtain ⟨cs, hcsmem, hcmem⟩ := hc
    obtain ⟨r, hr, hfr⟩ := mem_of_mapM _ routesList css hcss cs hcsmem
    obtain ⟨cs', hcs', hline⟩ := hall r hr
    obtain rfl := Option.some_inj.mp (hfr.symm.trans hcs')
    exact hline c hcmem

/-- The boldness heuristic, unfolded into its four propositional conditions:
first line, no leading space, no colon character, no bracket character. -/
theorem note_line_bold_iff (i : ℕ) (line : String) :
    note_line_bold i line = true ↔
      (i = 0 ∧ line.data.head? ≠ some ' ' ∧ ':' ∉ line.data ∧ '[' ∉ line.data) := by
  simp [note_line_bold, List.contains, List.elem_iff, and_assoc]

/-- The command that `draw_note` emits for the `i`-th text line: it sits
right after the background rectangle and uses the font chosen by
`note_line_bold`. -/
theorem draw_note_get? (F : Type) (fB fN : F) (x y w : ℚ) (lines : List String)
    (i : ℕ) (line : String) (hl : lines.get? i = some line) :
    (draw_note F fB fN x y w lines).get? (i+1) =
      some (Cmd.text (x+8) (y+6+(i : ℚ)*20) line "#333333"
        (if note_line_bold i line then fB else fN)) := by
  unfold draw_note
  rw [List.get?_cons_succ, List.get?_map, List.get?_enum, hl]
  rfl

/-- Claim C8: a note line is drawn in the bold font exactly when it is the
first line (index 0) and looks like a plain title — no leading space, no
colon, no bracket; in every other case (including every non-first line) the
regular note font is used. -/
theorem note_first_line_bold_iff (F : Type) (fB fN : F) (hne : fB ≠ fN)
    (x y w : ℚ) (lines : List String) (i : ℕ) (line : String)
    (hl : lines.get? i = some line) :
    ((draw_note F fB fN x y w lines).get? (i+1) =
        some (Cmd.text (x+8) (y+6+(i : ℚ)*20) line "#333333" fB) ↔
      (i = 0 ∧ line.data.head? ≠ some ' ' ∧ ':' ∉ line.data ∧ '[' ∉ line.data)) ∧
    ((draw_note F fB fN x y w lines).get? (i+1) =
        some (Cmd.text (x+8) (y+6+(i : ℚ)*20) line "#333333" fN) ↔
      ¬(i = 0 ∧ line.data.head? ≠ some ' ' ∧ ':' ∉ line.data ∧ '[' ∉ line.data)) := by
  rw [draw_note_get? F fB fN x y w lines i line hl]
  by_cases hb : note_line_bold i line = true
  · rw [if_pos hb]
    have hcond := (note_line_bold_iff i line).mp hb
    refine ⟨⟨fun _ => hcond, fun _ => rfl⟩, ⟨fun h => ?_, fun hc => absurd hcond hc⟩⟩
    simp only [Option.some_inj, Cmd.text.injEq] at h
    exact absurd h.2.2.2.2 hne
  · rw [if_neg hb]
    have hcond : ¬(i = 0 ∧ line.data.head? ≠ some ' ' ∧ ':' ∉ line.data ∧ '[' ∉ line.data) :=
      fun hc => hb ((note_line_bold_iff i line).mpr hc)
    refine ⟨⟨fun h => ?_, fun hc => absurd hc hcond⟩, ⟨fun _ => hcond, fun _ => rfl⟩⟩
    simp only [Option.some_inj, Cmd.text.injEq] at h
    exact absurd h.2.2.2.2.symm hne

/-- Witness for C8 on the "Model Parameters" note: its first line is bold,
as the heuristic's conditions all hold there. -/
theorem note_first_line_bold_iff_witness :
    (draw_note Nat 0 1 1250 640 250 ["Model Parameters", "  temperature"]).get? 1 =
      some (Cmd.text (1250+8) (640+6+((0 : ℕ) : ℚ)*20) "Model Parameters" "#333333" 0) :=
  ((note_first_line_bold_iff Nat 0 1 (by decide) 1250 640 250
      ["Model Parameters", "  temperature"] 0 "Model Parameters" rfl).1).mpr
    ⟨rfl, by decide, by decide, by decide⟩

end ERD

